import Mathlib

/-!
Verification development for the best-buy-sniper purchase workflow engine.

The TypeScript source (`src/pages/bestbuy.ts`, `src/index.ts`) is shallowly
embedded below: each embedded definition mirrors one function or code block of
the source, with browser/DOM/filesystem effects replaced by explicit
environment parameters and action traces.  JavaScript numbers that may be NaN
are modelled as `Option ℚ` (with `none` for NaN), so that the NaN comparison
semantics (`NaN === 0` and `NaN > b` are both false) is explicit.
-/

namespace BestBuySniper

/-! ## JS number model and the total-validation gate (submitGuestOrder) -/

/-- JS strict equality test `parsedTotal === 0`, where `none` models NaN
(`NaN === 0` is `false` in JS). -/
def jsEqZero : Option ℚ → Bool
  | none => false
  | some q => q == 0

/-- JS comparison `parsedTotal > budget`, where `none` models NaN
(any comparison with NaN is `false` in JS). -/
def jsGtNum : Option ℚ → ℚ → Bool
  | none, _ => false
  | some q, b => decide (b < q)

/-- The rejection condition of the final total-validation gate in
`submitGuestOrder` (source line 468):
`parsedTotal === 0 || parsedTotal > customerInformation.budget`. -/
def totalGateRejects (t : Option ℚ) (b : ℚ) : Bool :=
  jsEqZero t || jsGtNum t b

/-- The value of a sequence of decimal digit characters. -/
def digitsVal : List Char → ℕ
  | [] => 0
  | c :: rest => (c.toNat - 48) * 10 ^ rest.length + digitsVal rest

/-- Model of JS `parseFloat` restricted to the forms relevant here: optional
sign, then digits with an optional fractional part; `none` models NaN (no
parsable numeric prefix).  Exponent and Infinity forms are not modelled. -/
def jsParseFloat (s : String) : Option ℚ :=
  let cs := s.data
  let signed : Bool × List Char :=
    match cs with
    | '-' :: rest => (true, rest)
    | '+' :: rest => (false, rest)
    | _ => (false, cs)
  let intPart := signed.2.takeWhile Char.isDigit
  let afterInt := signed.2.dropWhile Char.isDigit
  let fracPart : List Char :=
    match afterInt with
    | '.' :: r => r.takeWhile Char.isDigit
    | _ => []
  if intPart.isEmpty && fracPart.isEmpty then none
  else
    let v : ℚ := (digitsVal intPart : ℚ) + (digitsVal fracPart : ℚ) / 10 ^ fracPart.length
    some (if signed.1 then -v else v)

/-- JS `text.replace(ch, '')` for a single-character pattern: removes the
first occurrence only. -/
def removeFirstChar (c : Char) : List Char → List Char
  | [] => []
  | x :: xs => if x = c then xs else x :: removeFirstChar c xs

/-- The parsing of the displayed order total in `submitGuestOrder` (source
line 466): `totalContainerTextContent ? parseFloat(text.replace('$', '')) : 0`.
`none` as input models an absent element / undefined textContent; the empty
string is falsy in JS, so both give `0`. -/
def parsedTotal : Option String → Option ℚ
  | none => some 0
  | some s => if s = "" then some 0 else jsParseFloat (String.mk (removeFirstChar '$' s.data))

/-- The final total-validation step of `submitGuestOrder` (source lines
464-469): reject (throw, aborting before order placement) exactly when the
gate condition holds; `.ok ()` means the step proceeds to order placement. -/
def totalValidation (text : Option String) (budget : ℚ) : Except String Unit :=
  if totalGateRejects (parsedTotal text) budget then
    .error "Total amount does not seems right, aborting"
  else
    .ok ()

/-! ## Bot-detection guard (addToCart, source lines 239-251) -/

/-- A browser cookie as the workflow sees it. -/
structure Cookie where
  name : String
  value : String
deriving DecidableEq, Repr

/-- lodash `find(cookies, { name })?.value`: the value of the first cookie
with the given name, or `none`. -/
def findCookieValue (cookies : List Cookie) (n : String) : Option String :=
  (cookies.find? (fun c => c.name == n)).map Cookie.value

/-- Whether `needle` occurs as a contiguous subsequence of `hay`; this is what
`/pat/g.test(s)` computes for a literal pattern on a fresh regex. -/
def listHasSub (needle : List Char) : List Char → Bool
  | [] => needle.isEmpty
  | c :: rest => needle.isPrefixOf (c :: rest) || listHasSub needle rest

/-- The clean-session marker `~0~` tested by `/~0~/g`. -/
def cleanMarker : List Char := ['~', '0', '~']

/-- The flagging condition of the bot-detection guard (source line 244):
`sensorCookie && !sensorValidationRegex.test(sensorCookie)`.  `none` models an
absent `_abck` cookie; JS string truthiness makes an empty cookie value fall
through the `&&`. -/
def sensorFlagged : Option String → Bool
  | none => false
  | some v => (!(v == "")) && !(listHasSub cleanMarker v.data)

/-- The bot-detection classification of a cookie set, as performed at the top
of `addToCart`. -/
def isFlagged (cookies : List Cookie) : Bool :=
  sensorFlagged (findCookieValue cookies "_abck")

/-! ## Notification fan-out and addToCart (source lines 236-292)

Every milestone dispatches both notifier implementations through
`await Promise.all([...])`; a rejection of either promise rejects the joined
promise and the `await` rethrows it into the enclosing workflow step. -/

/-- Decidable equality of step outcomes, used to evaluate the model on
concrete inputs. -/
instance {ε α : Type} [DecidableEq ε] [DecidableEq α] : DecidableEq (Except ε α)
  | .error e, .error f =>
    if h : e = f then .isTrue (by rw [h]) else .isFalse (by simp [h])
  | .error _, .ok _ => .isFalse (by simp)
  | .ok _, .error _ => .isFalse (by simp)
  | .ok a, .ok b =>
    if h : a = b then .isTrue (by rw [h]) else .isFalse (by simp [h])

/-- `await Promise.all([a, b])` over two settled notification promises:
rejects with the first rejection, otherwise fulfills. -/
def promiseAll2 (a b : Except String Unit) : Except String Unit :=
  match a with
  | .error e => .error e
  | .ok () => b

/-- The error message of the process-fatal bot-detection error. -/
def botMsg : String := "Browser is considered a bot, aborting attempt"

/-- Page/notifier environment of one `addToCart` execution.  Notification
fields carry the settled outcome of each notifier promise. -/
structure CartEnv where
  cookies : List Cookie
  inStock : Bool
  addSucceeded : Bool
  notifBotDiscord : Except String Unit := .ok ()
  notifBotTelegram : Except String Unit := .ok ()
  notifInStockDiscord : Except String Unit := .ok ()
  notifInStockTelegram : Except String Unit := .ok ()
  notifAddedDiscord : Except String Unit := .ok ()
  notifAddedTelegram : Except String Unit := .ok ()

/-- Observable actions of `addToCart`, in source order.  `clickAddToCart` is
the only cart-mutating action. -/
inductive CartAction where
  | focusButton
  | shotInStock
  | notifyInStock
  | clickAddToCart
  | notifyAdded
  | shotAdded
deriving DecidableEq, Repr

/-- `addToCart` (source lines 236-292) as a function of its environment:
checks the bot-detection guard, then stock, then focuses/clicks the
add-to-cart button, joining on both notifiers at each milestone.  Returns the
step outcome together with the trace of actions performed before it. -/
def addToCart (env : CartEnv) : Except String Unit × List CartAction :=
  if sensorFlagged (findCookieValue env.cookies "_abck") then
    match promiseAll2 env.notifBotDiscord env.notifBotTelegram with
    | .error e => (.error e, [])
    | .ok () => (.error botMsg, [])
  else if !env.inStock then
    (.error "Product not in stock, aborting attempt", [])
  else
    match promiseAll2 env.notifInStockDiscord env.notifInStockTelegram with
    | .error e => (.error e, [.focusButton, .shotInStock])
    | .ok () =>
      if !env.addSucceeded then
        (.error "Product was not able to be added to the cart",
          [.focusButton, .shotInStock, .notifyInStock, .clickAddToCart])
      else
        match promiseAll2 env.notifAddedDiscord env.notifAddedTelegram with
        | .error e =>
          (.error e,
            [.focusButton, .shotInStock, .notifyInStock, .clickAddToCart, .shotAdded])
        | .ok () =>
          (.ok (),
            [.focusButton, .shotInStock, .notifyInStock, .clickAddToCart, .shotAdded,
              .notifyAdded])

/-! ## Checkout state machine (source lines 313-372) -/

/-- Leading- and trailing-whitespace removal on character lists, modelling JS
`String.prototype.trim` (ASCII whitespace). -/
def trimChars (cs : List Char) : List Char :=
  ((cs.dropWhile Char.isWhitespace).reverse.dropWhile Char.isWhitespace).reverse

/-- Character-wise lowercasing, modelling JS `toLowerCase` on ASCII text. -/
def lowerChars (cs : List Char) : List Char :=
  cs.map Char.toLower

/-- `isCartEmpty` (source lines 374-381): the trimmed, lowercased text of the
cart title element equals `your cart is empty`
(`elementTextContent.trim().toLowerCase() === 'your cart is empty'`); an
absent element or empty text (falsy) is treated as a non-empty cart. -/
def isCartEmpty : Option String → Bool
  | none => false
  | some s =>
    if s = "" then false
    else lowerChars (trimChars s.data) == "your cart is empty".data

/-- The shipping-selection do/while loop of `checkout` (source lines 323-340):
`attempt` starts at 1; each failed try increments it and the loop rethrows
once `attempt > 3`.  `env k` tells whether the k-th selection try succeeds;
the spent fuel argument (`4 - attempt` at entry) makes the recursion
structural.  Returns the successful attempt number. -/
def shippingGo (env : ℕ → Bool) : ℕ → ℕ → Except Unit ℕ
  | _, 0 => .error ()
  | attempt, fuel + 1 =>
    if env attempt then .ok attempt
    else if attempt + 1 > 3 then .error ()
    else shippingGo env (attempt + 1) fuel

/-- The shipping-selection loop entered as the source does, at attempt 1. -/
def shippingSelect (env : ℕ → Bool) : Except Unit ℕ :=
  shippingGo env 1 3

/-- Terminal failures of one `checkout` invocation.  `scriptEnded` is a model
artifact marking that the environment script ran out while the recursion was
still re-entering checkout. -/
inductive CheckoutError where
  | cartEmpty
  | shippingUnavailable
  | scriptEnded
deriving DecidableEq, Repr

/-- Environment of one checkout pass: the cart-title text (consulted by the
retry-mode cart-empty check), the per-attempt shipping-selector outcomes
(consulted on the first pass only), and whether the guest-checkout prompt
renders within the 10 s timeout at the end of the pass. -/
structure PassEnv where
  cartTitle : Option String := none
  shipping : ℕ → Bool := fun _ => true
  promptRendered : Bool

/-- `checkout(retrying)` (source lines 313-372) over a script of pass
environments, returning the outcome and the number of checkout passes
performed.  A pass whose guest-prompt wait times out re-enters
`checkout(true)` on the rest of the script — exactly the recursive catch
handler of the source (line 370). -/
def checkoutRun : Bool → List PassEnv → Except CheckoutError Unit × ℕ
  | _, [] => (.error .scriptEnded, 0)
  | retrying, e :: rest =>
    if retrying && isCartEmpty e.cartTitle then (.error .cartEmpty, 1)
    else
      match if retrying then Except.ok 0 else shippingSelect e.shipping with
      | .error _ => (.error .shippingUnavailable, 1)
      | .ok _ =>
        if e.promptRendered then (.ok (), 1)
        else
          let r := checkoutRun true rest
          (r.1, r.2 + 1)

/-! ## Purchase orchestrator (purchaseProduct, source lines 184-207) -/

/-- What one candidate's try block (navigate, SKU validation, add-to-cart,
checkout, guest order) did: completed, or threw an error with a message. -/
inductive CandResult where
  | ok
  | threw (msg : String)
deriving DecidableEq, Repr

/-- `purchaseProduct` (source lines 184-207): iterate candidates in list
order; return `true` at the first completed candidate; a caught error is
rethrown exactly when its message is the bot-detection message, otherwise the
loop advances; return `false` when the list is exhausted. -/
def purchaseProduct : List CandResult → Except String Bool
  | [] => .ok false
  | .ok :: _ => .ok true
  | .threw m :: rest => if m = botMsg then .error m else purchaseProduct rest

/-! ## Purchase guard and the order-placement step (source lines 486-525) -/

/-- Observable actions of the tail of `submitGuestOrder`, after payment
information and total validation.  `orderSubmitClick` is the order-confirm
click, present in the source only as the commented-out auto-checkout block
(lines 492-496), so it is never emitted. -/
inductive OrderAction where
  | guardCheck
  | orderSubmitClick
  | waitMs (ms : ℕ)
  | guardWrite
  | shotPlacing
  | notifyPlacing
  | shotPlaced
  | notifyPlaced
  | shotPlaced2
deriving DecidableEq, Repr

/-- Terminal outcome of the order-placement step: `exitProcess 2` is the
distinguished already-complete status (the same non-zero code the process
manager reads as terminal success, see the startup guard in `index.ts`), and
`completed` is normal completion of `submitGuestOrder`. -/
inductive StepOutcome where
  | exitProcess (code : ℕ)
  | completed
deriving DecidableEq, Repr

/-- Result of one order-placement step: the trace of actions performed, the
purchase-guard state afterwards, and the terminal outcome. -/
structure StepResult where
  trace : List OrderAction
  guardAfter : Bool
  outcome : StepOutcome
deriving DecidableEq, Repr

/-- The order-placement tail of `submitGuestOrder` (source lines 473-525,
after the screenshot/notification at 481-484): screenshot and notify, consult
the purchase guard (`existsSync('purchase.json')`, line 486) and exit with
status 2 if it is set; otherwise wait, then write the guard only if it is
still unset (line 502), notify, and finish.  `guardSet` is the guard state on
entry. -/
def orderPlacementStep (guardSet : Bool) : StepResult :=
  let pre : List OrderAction := [.shotPlacing, .notifyPlacing, .guardCheck]
  if guardSet then
    { trace := pre, guardAfter := guardSet, outcome := .exitProcess 2 }
  else
    let afterWait := pre ++ [.waitMs 3000, .guardCheck]
    let traceWrite := if guardSet then afterWait else afterWait ++ [.guardWrite]
    { trace :=
        traceWrite ++ [.shotPlaced, .notifyPlaced, .waitMs 3000, .shotPlaced2, .waitMs 14000],
      guardAfter := true,
      outcome := .completed }

/-- Number of purchase-guard writes an order-placement step performed. -/
def countWrites (r : StepResult) : ℕ :=
  r.trace.count .guardWrite

/-- Total number of purchase-guard writes across up to `n` successive
order-placement steps in one process, threading the guard state and stopping
when a step exits the process. -/
def runSteps : Bool → ℕ → ℕ
  | _, 0 => 0
  | g, n + 1 =>
    let r := orderPlacementStep g
    match r.outcome with
    | .exitProcess _ => countWrites r
    | .completed => countWrites r + runSteps r.guardAfter n

/-! ## Stock poll loop backoff (index.ts, source lines 46-56) -/

/-- lodash `random(lower, upper)` for integer bounds: produces an integer
between the inclusive lower and upper bounds, computed as
`lower + floor(r * (upper - lower + 1))` where `r` is the underlying
`Math.random()` draw from `[0, 1)` (modelled as a rational). -/
def lodashRandom (lower upper : ℕ) (r : ℚ) : ℤ :=
  lower + ⌊r * ((upper : ℚ) - (lower : ℚ) + 1)⌋

/-- The backoff wait chosen between unsuccessful purchase attempts:
`random(10000, 30000)` milliseconds (source line 50). -/
def backoffWait (r : ℚ) : ℤ :=
  lodashRandom 10000 30000 r

/-! ## Concrete inputs used by counterexamples and code-bug evaluations -/

/-- A checkout pass in which the cart is fine, shipping selection succeeds,
but the guest-checkout prompt never renders within the timeout. -/
def timeoutPass : PassEnv :=
  { promptRendered := false }

/-- An `addToCart` environment in which everything succeeds. -/
def cartEnvNotifOk : CartEnv :=
  { cookies := [], inStock := true, addSucceeded := true }

/-- The same environment except that the Telegram in-stock notification
rejects. -/
def cartEnvNotifFail : CartEnv :=
  { cookies := [], inStock := true, addSucceeded := true,
    notifInStockTelegram := .error "notification delivery failed" }

/-- An `addToCart` environment whose session carries an `_abck` cookie with a
non-empty value lacking the clean marker. -/
def flaggedCartEnv : CartEnv :=
  { cookies := [⟨"_abck", "xyz"⟩], inStock := true, addSucceeded := true }

/-- A checkout pass whose cart page reports an empty cart. -/
def emptyCartPass : PassEnv :=
  { cartTitle := some "Your cart is empty", promptRendered := true }

/-! ## Theorems -/

/-- Closed form of the shipping-selection loop: it is decided entirely by the
outcomes of attempts 1, 2 and 3. -/
theorem shippingSelect_eq (env : ℕ → Bool) :
    shippingSelect env =
      if env 1 then .ok 1 else if env 2 then .ok 2 else if env 3 then .ok 3
      else .error () := by
  by_cases h1 : env 1 <;> by_cases h2 : env 2 <;> by_cases h3 : env 3 <;>
    simp [shippingSelect, shippingGo, h1, h2, h3]

/-- C1: in the final total validation of `submitGuestOrder`, a displayed
total parsing to `t` with budget `b` is rejected (the step throws, aborting
before order placement) whenever `t = 0` or `t > b`, and is accepted (the
step proceeds to order placement) for every `t` with `0 < t ≤ b`. -/
theorem totalValidation_rejects_zero_or_over_budget
    (text : Option String) (t b : ℚ) (hp : parsedTotal text = some t) :
    ((t = 0 ∨ b < t) →
      totalValidation text b = .error "Total amount does not seems right, aborting") ∧
    (0 < t → t ≤ b → totalValidation text b = .ok ()) := by
  constructor
  · intro h
    rcases h with h | h <;>
      simp [totalValidation, totalGateRejects, jsEqZero, jsGtNum, hp, h]
  · intro h0 hb
    have hne : t ≠ 0 := ne_of_gt h0
    have hnb : ¬ b < t := not_lt.mpr hb
    simp [totalValidation, totalGateRejects, jsEqZero, jsGtNum, hp, hne, hnb]

/-- C1 witness: the concrete total `$1500` against budget `2000` parses to
`1500` and passes validation. -/
theorem totalValidation_rejects_zero_or_over_budget_witness :
    parsedTotal (some "$1500") = some 1500 ∧
    (0:ℚ) < 1500 ∧ (1500:ℚ) ≤ 2000 ∧
    totalValidation (some "$1500") 2000 = .ok () :=
  ⟨by simp [parsedTotal, jsParseFloat, removeFirstChar, digitsVal],
    by norm_num, by norm_num,
    (totalValidation_rejects_zero_or_over_budget (some "$1500") 1500 2000
      (by simp [parsedTotal, jsParseFloat, removeFirstChar, digitsVal])).2
      (by norm_num) (by norm_num)⟩

/-- C10: the gate rejects exactly parsed totals equal to 0 or above budget,
so a displayed text whose parse yields NaN, or a negative parsed total,
passes validation and order placement proceeds. -/
theorem nan_or_negative_total_passes_gate (s : String) (b : ℚ) (hb : 0 ≤ b) :
    (parsedTotal (some s) = none → totalValidation (some s) b = .ok ()) ∧
    (∀ q : ℚ, parsedTotal (some s) = some q → q < 0 →
      totalValidation (some s) b = .ok ()) := by
  constructor
  · intro h
    simp [totalValidation, totalGateRejects, jsEqZero, jsGtNum, h]
  · intro q hq hneg
    have hne : q ≠ 0 := ne_of_lt hneg
    have hnb : ¬ b < q := not_lt.mpr (le_of_lt (lt_of_lt_of_le hneg hb))
    simp [totalValidation, totalGateRejects, jsEqZero, jsGtNum, hq, hne, hnb]

/-- C10 witness: the non-numeric text `Free` (parse is NaN) and the negative
total `$-5.00` both pass the gate with budget `2000`. -/
theorem nan_or_negative_total_passes_gate_witness :
    (0:ℚ) ≤ 2000 ∧
    parsedTotal (some "Free") = none ∧
    totalValidation (some "Free") 2000 = .ok () ∧
    parsedTotal (some "$-5.00") = some (-5) ∧ (-5:ℚ) < 0 ∧
    totalValidation (some "$-5.00") 2000 = .ok () :=
  ⟨by norm_num, by decide,
    (nan_or_negative_total_passes_gate "Free" 2000 (by norm_num)).1 (by decide),
    by simp +decide [parsedTotal, jsParseFloat, removeFirstChar, digitsVal,
      List.takeWhile, List.dropWhile],
    by norm_num,
    (nan_or_negative_total_passes_gate "$-5.00" 2000 (by norm_num)).2 (-5)
      (by simp +decide [parsedTotal, jsParseFloat, removeFirstChar, digitsVal,
        List.takeWhile, List.dropWhile])
      (by norm_num)⟩

/-- C5 counterexample: a present `_abck` cookie with the empty-string value
does not contain the clean marker, yet the guard does not flag it — JS string
truthiness short-circuits the `sensorCookie && ...` test — refuting the claim
that every present cookie without the marker is flagged. -/
theorem present_markerless_cookie_not_flagged :
    findCookieValue [⟨"_abck", ""⟩] "_abck" = some "" ∧
    listHasSub cleanMarker "".data = false ∧
    isFlagged [⟨"_abck", ""⟩] = false := by
  decide

/-- C5 amended: an absent cookie is not flagged; a present cookie containing
the clean marker is not flagged; a present cookie with the empty-string value
is not flagged (truthiness short-circuit); a present cookie with a non-empty
value lacking the marker is flagged, and in that case `addToCart` throws the
process-fatal bot-detection error before any cart-mutating action. -/
theorem bot_detection_classification (cookies : List Cookie) :
    (findCookieValue cookies "_abck" = none → isFlagged cookies = false) ∧
    (∀ v, findCookieValue cookies "_abck" = some v →
      (listHasSub cleanMarker v.data = true → isFlagged cookies = false) ∧
      (v = "" → isFlagged cookies = false) ∧
      (v ≠ "" → listHasSub cleanMarker v.data = false → isFlagged cookies = true)) ∧
    (∀ env : CartEnv, isFlagged env.cookies = true →
      env.notifBotDiscord = .ok () → env.notifBotTelegram = .ok () →
      (addToCart env).1 = .error botMsg ∧
      CartAction.clickAddToCart ∉ (addToCart env).2) := by
  refine ⟨?_, ?_, ?_⟩
  · intro h
    simp [isFlagged, sensorFlagged, h]
  · intro v hv
    refine ⟨?_, ?_, ?_⟩
    · intro hm
      simp [isFlagged, sensorFlagged, hv, hm]
    · intro he
      simp [isFlagged, sensorFlagged, hv, he]
    · intro hne hm
      simp [isFlagged, sensorFlagged, hv, hne, hm]
  · intro env hflag hd ht
    have : sensorFlagged (findCookieValue env.cookies "_abck") = true := hflag
    simp [addToCart, this, hd, ht, promiseAll2]

/-- C5 amended witness: the concrete cookie value `xyz` is flagged and makes
`addToCart` fail fatally with no cart mutation. -/
theorem bot_detection_classification_witness :
    findCookieValue flaggedCartEnv.cookies "_abck" = some "xyz" ∧
    "xyz" ≠ "" ∧ listHasSub cleanMarker "xyz".data = false ∧
    isFlagged flaggedCartEnv.cookies = true ∧
    (addToCart flaggedCartEnv).1 = .error botMsg :=
  ⟨by decide, by decide, by decide,
    ((bot_detection_classification flaggedCartEnv.cookies).2.1 "xyz"
      (by decide)).2.2 (by decide) (by decide),
    ((bot_detection_classification flaggedCartEnv.cookies).2.2 flaggedCartEnv
      (((bot_detection_classification flaggedCartEnv.cookies).2.1 "xyz"
        (by decide)).2.2 (by decide) (by decide)) rfl rfl).1⟩

/-- Helper: once the purchase guard is set, an order-placement step exits
without writing, so any run from a set guard writes nothing. -/
theorem runSteps_guard_set (n : ℕ) : runSteps true n = 0 := by
  cases n <;> rfl

/-- C2: the order-placement step consults the purchase guard directly before
the (configuration-disabled) order-submit click; with the guard already set it
terminates right there — exit status 2, the terminal already-complete status —
performing no order action and no write; and across any number of successive
steps in one process the guard is written at most once, the write being
skipped whenever the marker already exists. -/
theorem purchase_guard_consulted_and_written_once (g : Bool) (n : ℕ) :
    (orderPlacementStep true).outcome = .exitProcess 2 ∧
    (orderPlacementStep true).trace = [.shotPlacing, .notifyPlacing, .guardCheck] ∧
    countWrites (orderPlacementStep true) = 0 ∧
    OrderAction.orderSubmitClick ∉ (orderPlacementStep g).trace ∧
    (orderPlacementStep g).trace.take 3 = [.shotPlacing, .notifyPlacing, .guardCheck] ∧
    runSteps g n ≤ 1 := by
  refine ⟨rfl, rfl, rfl, ?_, ?_, ?_⟩
  · cases g <;> decide
  · cases g <;> rfl
  · cases g
    · cases n with
      | zero => exact Nat.zero_le 1
      | succ m =>
        rw [show runSteps false (m + 1) =
          countWrites (orderPlacementStep false) + runSteps true m from rfl,
          runSteps_guard_set]
        decide
    · rw [runSteps_guard_set]
      exact Nat.zero_le 1

/-- Helper: a retry-mode checkout run over a script of guest-prompt timeouts
keeps re-entering itself, performing one pass per script entry. -/
theorem checkoutRun_retry_timeouts (n : ℕ) :
    checkoutRun true (List.replicate n timeoutPass) = (.error .scriptEnded, n) := by
  induction n with
  | zero => rfl
  | succ m ih =>
    rw [List.replicate_succ,
      show checkoutRun true (timeoutPass :: List.replicate m timeoutPass) =
        ((checkoutRun true (List.replicate m timeoutPass)).1,
          (checkoutRun true (List.replicate m timeoutPass)).2 + 1) from rfl,
      ih]

/-- C3 (refutation): when the guest-checkout prompt times out on every pass,
`checkout` re-enters itself in retry mode on each timeout, so a script of
`n + 1` consecutive timeouts produces `n + 1` checkout passes; in particular
3 timeouts produce 3 passes, exceeding the claimed bound of one extra pass
(at most 2 passes in total). -/
theorem checkout_timeout_retry_unbounded :
    (checkoutRun false (List.replicate 3 timeoutPass)).2 = 3 ∧
    2 < (checkoutRun false (List.replicate 3 timeoutPass)).2 ∧
    (∀ n : ℕ, (checkoutRun false (List.replicate (n + 1) timeoutPass)).2 = n + 1) := by
  have key : ∀ n : ℕ, checkoutRun false (List.replicate (n + 1) timeoutPass) =
      (.error .scriptEnded, n + 1) := by
    intro n
    rw [List.replicate_succ,
      show checkoutRun false (timeoutPass :: List.replicate n timeoutPass) =
        ((checkoutRun true (List.replicate n timeoutPass)).1,
          (checkoutRun true (List.replicate n timeoutPass)).2 + 1) from rfl,
      checkoutRun_retry_timeouts n]
  refine ⟨?_, ?_, fun n => by rw [key n]⟩
  · rw [show (3:ℕ) = 2 + 1 from rfl, key 2]
  · rw [show (3:ℕ) = 2 + 1 from rfl, key 2]
    decide

/-- C4 (refutation): the notification joins are awaited `Promise.all`
barriers, so a rejected notification send changes the outcome of the
enclosing step: with every page interaction succeeding, `addToCart` completes
when both notifiers fulfil but fails with the notification error when the
Telegram in-stock send rejects. -/
theorem notification_failure_aborts_step :
    (addToCart cartEnvNotifOk).1 = .ok () ∧
    (addToCart cartEnvNotifFail).1 = .error "notification delivery failed" ∧
    (addToCart cartEnvNotifFail).1 ≠ (addToCart cartEnvNotifOk).1 :=
  ⟨rfl, rfl, by decide⟩

/-- C6: the shipping-selection loop of a first-pass checkout makes at most 3
attempts: any success is at attempt 1, 2 or 3; success on attempt 1, 2 or 3
exits the loop; three failures abort with the shipping-unavailable error; the
result never depends on a fourth attempt; and a first checkout pass whose
three attempts all fail ends with the shipping-unavailable failure. -/
theorem shipping_at_most_three_attempts (env : ℕ → Bool) :
    (∀ k, shippingSelect env = .ok k → 1 ≤ k ∧ k ≤ 3 ∧ env k = true) ∧
    (env 1 = true → shippingSelect env = .ok 1) ∧
    (env 1 = false → env 2 = true → shippingSelect env = .ok 2) ∧
    (env 1 = false → env 2 = false → env 3 = true → shippingSelect env = .ok 3) ∧
    (env 1 = false → env 2 = false → env 3 = false → shippingSelect env = .error ()) ∧
    (∀ env' : ℕ → Bool, env 1 = env' 1 → env 2 = env' 2 → env 3 = env' 3 →
      shippingSelect env = shippingSelect env') ∧
    (∀ (e : PassEnv) (rest : List PassEnv), e.shipping 1 = false →
      e.shipping 2 = false → e.shipping 3 = false →
      checkoutRun false (e :: rest) = (.error .shippingUnavailable, 1)) := by
  refine ⟨?_, ?_, ?_, ?_, ?_, ?_, ?_⟩
  · intro k hk
    rw [shippingSelect_eq] at hk
    by_cases h1 : env 1 = true
    · rw [if_pos h1] at hk
      injection hk with hk
      subst hk
      exact ⟨le_refl 1, by norm_num, h1⟩
    · rw [if_neg h1] at hk
      by_cases h2 : env 2 = true
      · rw [if_pos h2] at hk
        injection hk with hk
        subst hk
        exact ⟨by norm_num, by norm_num, h2⟩
      · rw [if_neg h2] at hk
        by_cases h3 : env 3 = true
        · rw [if_pos h3] at hk
          injection hk with hk
          subst hk
          exact ⟨by norm_num, by norm_num, h3⟩
        · rw [if_neg h3] at hk
          simp at hk
  · intro h1
    rw [shippingSelect_eq, if_pos h1]
  · intro h1 h2
    rw [shippingSelect_eq]
    simp [h1, h2]
  · intro h1 h2 h3
    rw [shippingSelect_eq]
    simp [h1, h2, h3]
  · intro h1 h2 h3
    rw [shippingSelect_eq]
    simp [h1, h2, h3]
  · intro env' e1 e2 e3
    rw [shippingSelect_eq, shippingSelect_eq, e1, e2, e3]
  · intro e rest h1 h2 h3
    simp [checkoutRun, shippingSelect_eq, h1, h2, h3]

/-- C6 witness: three failures abort; succeeding at attempt 2 exits there. -/
theorem shipping_at_most_three_attempts_witness :
    shippingSelect (fun _ => false) = .error () ∧
    shippingSelect (fun n => n == 2) = .ok 2 :=
  ⟨(shipping_at_most_three_attempts (fun _ => false)).2.2.2.2.1 rfl rfl rfl,
    (shipping_at_most_three_attempts (fun n => n == 2)).2.2.1 rfl rfl⟩

/-- C7: `purchaseProduct` walks the candidate list in order: after any prefix
of candidates that threw non-bot-detection errors, a completing candidate
makes it return `true`; a list of only non-bot failures returns `false`; and
a bot-detection error short-circuits the loop, propagating upward instead of
advancing past the throwing candidate. -/
theorem purchaseProduct_candidate_loop (pre post : List CandResult)
    (hpre : ∀ c ∈ pre, ∃ m, c = .threw m ∧ m ≠ botMsg) :
    purchaseProduct (pre ++ .ok :: post) = .ok true ∧
    purchaseProduct pre = .ok false ∧
    purchaseProduct (pre ++ .threw botMsg :: post) = .error botMsg := by
  induction pre with
  | nil =>
    refine ⟨rfl, rfl, ?_⟩
    simp [purchaseProduct]
  | cons c rest ih =>
    obtain ⟨m, hc, hm⟩ := hpre c (List.mem_cons_self c rest)
    subst hc
    have ih' := ih fun d hd => hpre d (List.mem_cons_of_mem _ hd)
    simp only [List.cons_append, purchaseProduct, if_neg hm]
    exact ih'

/-- C7 witness: an out-of-stock candidate is skipped before a completing one,
an all-failures list yields `false`, and a bot-detection error propagates. -/
theorem purchaseProduct_candidate_loop_witness :
    purchaseProduct [.threw "Product not in stock, aborting attempt", .ok] = .ok true ∧
    purchaseProduct [.threw "Product not in stock, aborting attempt"] = .ok false ∧
    purchaseProduct [.threw "Product not in stock, aborting attempt", .threw botMsg] =
      .error botMsg := by
  have hpre : ∀ c ∈ [CandResult.threw "Product not in stock, aborting attempt"],
      ∃ m, c = CandResult.threw m ∧ m ≠ botMsg := by
    intro c hc
    rw [List.mem_singleton] at hc
    exact ⟨_, hc, by decide⟩
  exact purchaseProduct_candidate_loop
    [.threw "Product not in stock, aborting attempt"] [] hpre

/-- C8: entering checkout in retry mode with the cart page reporting an empty
cart fails immediately with the cart-empty error in that single pass, while a
first-pass (non-retry) entry never consults the cart-title text: its result
is the same whatever that text is. -/
theorem cartEmpty_abort_only_in_retry_mode (e : PassEnv) (rest : List PassEnv)
    (t t' : Option String) :
    (isCartEmpty e.cartTitle = true →
      checkoutRun true (e :: rest) = (.error .cartEmpty, 1)) ∧
    checkoutRun false ({ e with cartTitle := t } :: rest) =
      checkoutRun false ({ e with cartTitle := t' } :: rest) := by
  constructor
  · intro h
    simp [checkoutRun, h]
  · rfl

/-- C8 witness: a retry pass over a page titled `Your cart is empty` aborts
with the cart-empty error. -/
theorem cartEmpty_abort_only_in_retry_mode_witness :
    isCartEmpty emptyCartPass.cartTitle = true ∧
    checkoutRun true [emptyCartPass] = (.error .cartEmpty, 1) :=
  ⟨by decide,
    (cartEmpty_abort_only_in_retry_mode emptyCartPass [] none none).1 (by decide)⟩

/-- C9 counterexample: the draw `r = 20000/20001` lies in `[0, 1)` yet yields
a backoff of exactly 30000 ms, so the wait is not strictly below the upper
bound: lodash `random` is inclusive of both bounds. -/
theorem backoff_reaches_upper_bound :
    (0:ℚ) ≤ 20000/20001 ∧ ((20000:ℚ)/20001) < 1 ∧
    backoffWait (20000/20001) = 30000 ∧ ¬ backoffWait (20000/20001) < 30000 := by
  have h : backoffWait (20000/20001) = 30000 := by
    unfold backoffWait lodashRandom
    norm_num
  exact ⟨by norm_num, by norm_num, h, by rw [h]; exact lt_irrefl 30000⟩

/-- C9 amended: for every draw `r ∈ [0, 1)` the backoff lies in the closed
interval `[10000, 30000]` — at least 10 s and at most (not strictly less
than) 30 s. -/
theorem backoff_within_inclusive_range (r : ℚ) (h0 : 0 ≤ r) (h1 : r < 1) :
    10000 ≤ backoffWait r ∧ backoffWait r ≤ 30000 := by
  unfold backoffWait lodashRandom
  have hc : ((30000:ℕ):ℚ) - ((10000:ℕ):ℚ) + 1 = 20001 := by norm_num
  rw [hc]
  constructor
  · have hnn : (0:ℤ) ≤ ⌊r * 20001⌋ :=
      Int.floor_nonneg.mpr (mul_nonneg h0 (by norm_num))
    push_cast
    omega
  · have hlt : ⌊r * 20001⌋ < 20001 := by
      rw [Int.floor_lt]
      push_cast
      nlinarith
    push_cast
    omega

/-- C9 amended witness: the draw `1/2` gives a backoff inside the closed
range. -/
theorem backoff_within_inclusive_range_witness :
    (0:ℚ) ≤ 1/2 ∧ (1/2:ℚ) < 1 ∧
    10000 ≤ backoffWait (1/2) ∧ backoffWait (1/2) ≤ 30000 :=
  ⟨by norm_num, by norm_num,
    (backoff_within_inclusive_range (1/2) (by norm_num) (by norm_num)).1,
    (backoff_within_inclusive_range (1/2) (by norm_num) (by norm_num)).2⟩

end BestBuySniper
